import Mathlib

/-!
# Verification of the V.I.S.A.G.E frame-acquisition and motion-analysis engine

Shallow embedding of `src/src/camera.py` (class `LiveCamera`): the motion
analyzer (`_run_fast_motion_detection`), the capture-loop state updates
(`_capture_loop`), device open (`initialize_camera`), the frame cache
(`current_frame` / `raw_frame` under `frame_lock`), the tuning setters, and
the overlay renderer (`add_security_overlay`).

Conventions of the embedding:
* Python floats (`time.time()` values, scale factors, learning rates) are
  modelled as rationals `ℚ`; Python ints as `Int` / `Nat`.
* OpenCV library calls (`cv2.resize`, `cvtColor`, the background subtractor,
  `findContours`, `contourArea`, `boundingRect`) are external: their combined
  outcome for one analysis cycle is a value of `Except Unit (List Contour)`,
  where `Except.error` stands for any exception raised inside the `try`
  block before the state-update code runs (every fallible cv2 call in
  `_run_fast_motion_detection` precedes the first mutation of `self`).
* Frames are value-level pixel buffers with a width and a height
  (`frame.shape[1]`, `frame.shape[0]`).
-/

/-- A decoded image: `shape[1] = w`, `shape[0] = h`, plus a pixel buffer. -/
structure Frame where
  w : Nat
  h : Nat
  data : List Nat
  deriving DecidableEq, Repr, Inhabited

/-- A contour as returned by `cv2.findContours` on the downscaled mask,
together with the values the code extracts from it: `cv2.boundingRect cnt`
gives `(x, y, w, h)` (ints) and `cv2.contourArea cnt` gives `area` (float). -/
structure Contour where
  x : Int
  y : Int
  w : Int
  h : Int
  area : ℚ
  deriving DecidableEq, Repr

/-- A stored motion region `(x, y, w_box, h_box, area_full)` as appended to
`self.motion_areas` in `_run_fast_motion_detection`. -/
structure Region where
  x : Int
  y : Int
  w : Int
  h : Int
  area : Int
  deriving DecidableEq, Repr

/-- Python `int()` applied to a float: truncation toward zero. -/
def pyInt (q : ℚ) : Int :=
  if 0 ≤ q then ⌊q⌋ else -⌊-q⌋

/-- Fixed analysis resolution `self._motion_scale_w = 160` (camera.py line 59). -/
def motion_scale_w : Nat := 160

/-- Fixed analysis resolution `self._motion_scale_h = 120` (camera.py line 60). -/
def motion_scale_h : Nat := 120

/-- The contour loop of `_run_fast_motion_detection` (camera.py lines 286-303):
rescale factors from the analysis resolution back to the full frame, drop each
contour whose scaled-back area is not above `motion_threshold`, store the
rescaled bounding box with the truncated full-resolution area, and accumulate
`total_motion_area`. Returns `(motion_areas, total_motion_area)`. -/
def processContours (threshold : ℚ) (frameW frameH : Nat) (contours : List Contour) :
    List Region × Int :=
  let scale_x : ℚ := (frameW : ℚ) / (motion_scale_w : ℚ)
  let scale_y : ℚ := (frameH : ℚ) / (motion_scale_h : ℚ)
  let area_scale : ℚ := scale_x * scale_y
  contours.foldl
    (fun acc cnt =>
      if cnt.area * area_scale > threshold then
        let r : Region :=
          { x := pyInt ((cnt.x : ℚ) * scale_x)
            y := pyInt ((cnt.y : ℚ) * scale_y)
            w := pyInt ((cnt.w : ℚ) * scale_x)
            h := pyInt ((cnt.h : ℚ) * scale_y)
            area := pyInt (cnt.area * area_scale) }
        (acc.1 ++ [r], acc.2 + r.area)
      else acc)
    ([], 0)

/-- The mutable state of a `LiveCamera` instance: the fields of
`LiveCamera.__init__` (camera.py lines 34-74) that the embedded operations
read or write. `motion_cooldown` is written only at construction. -/
structure LiveCamera where
  camera_index : Nat
  motion_detection_enabled : Bool
  motion_threshold : ℚ
  motion_sensitivity : Int
  motion_detected : Bool
  motion_areas : List Region
  last_motion_time : ℚ
  motion_cooldown : ℚ
  frame_count : Nat
  error_count : Nat
  max_errors : Nat
  fps_counter : List ℚ
  current_frame : Option Frame
  raw_frame : Option Frame
  is_running : Bool
  deriving DecidableEq, Repr

/-- The state set up by `LiveCamera.__init__` (camera.py lines 34-74).
`initFrame` is the verification frame cached by the `initialize_camera`
call inside `__init__` (both slots receive a copy of it), or `none`
when construction is modelled before any frame is cached. -/
def initLiveCamera (initFrame : Option Frame) : LiveCamera :=
  { camera_index := 0
    motion_detection_enabled := true
    motion_threshold := 500
    motion_sensitivity := 25
    motion_detected := false
    motion_areas := []
    last_motion_time := 0
    motion_cooldown := 2
    frame_count := 0
    error_count := 0
    max_errors := 5
    fps_counter := []
    current_frame := initFrame
    raw_frame := initFrame
    is_running := true }

/-- `set_motion_sensitivity` (camera.py lines 341-345):
`self.motion_sensitivity = max(1, min(100, sensitivity))`.
Total: never raises for any integer argument. -/
def LiveCamera.set_motion_sensitivity (s : LiveCamera) (sensitivity : Int) : LiveCamera :=
  { s with motion_sensitivity := max 1 (min 100 sensitivity) }

/-- `set_motion_threshold` (camera.py lines 347-351):
`self.motion_threshold = max(100, threshold)`.
Total: never raises for any numeric argument. -/
def LiveCamera.set_motion_threshold (s : LiveCamera) (threshold : ℚ) : LiveCamera :=
  { s with motion_threshold := max 100 threshold }

/-- `toggle_motion_detection` (camera.py lines 333-339). -/
def LiveCamera.toggle_motion_detection (s : LiveCamera) : LiveCamera :=
  { s with motion_detection_enabled := !s.motion_detection_enabled }

/-- The verification-read loop of `initialize_camera` (camera.py lines
157-169): `for attempt in range(3)`, return the first successful
`self.cap.read()`; `time.sleep(0.05)` between attempts has no effect on the
returned value. `reads i` is the outcome of the i-th `cap.read()` call. -/
def verificationRead (reads : Nat → Option Frame) : Option Frame :=
  match reads 0 with
  | some f => some f
  | none =>
    match reads 1 with
    | some f => some f
    | none => reads 2

/-- `initialize_camera` (camera.py lines 116-174). `openOk` abstracts the
backend-fallback loop over `[CAP_DSHOW, CAP_V4L2, CAP_ANY]` (lines 126-141):
true iff some backend produced an opened handle. Property sets (lines
144-155) are best-effort and do not affect the result. On a successful
verification read the frame is copied into both cache slots and the call
returns `True`; with no opened backend or no readable frame it returns
`False` and leaves the state unchanged. -/
def LiveCamera.initialize_camera (s : LiveCamera) (openOk : Bool)
    (reads : Nat → Option Frame) : Bool × LiveCamera :=
  if openOk then
    match verificationRead reads with
    | some f => (true, { s with current_frame := some f, raw_frame := some f })
    | none => (false, s)
  else (false, s)

/-- Claim C10: the tuning setters clamp instead of rejecting: after
`set_motion_sensitivity v` the stored sensitivity lies in `[1, 100]`, and
after `set_motion_threshold t` the stored threshold is at least `100`;
both setters are total functions of the state (they never raise). -/
theorem setters_clamp (s : LiveCamera) (v : Int) (t : ℚ) :
    1 ≤ (s.set_motion_sensitivity v).motion_sensitivity ∧
      (s.set_motion_sensitivity v).motion_sensitivity ≤ 100 ∧
      100 ≤ (s.set_motion_threshold t).motion_threshold := by
  refine ⟨le_max_left _ _, max_le (by norm_num) ?_, le_max_left _ _⟩
  exact le_trans (min_le_left _ _) (by norm_num)

/-- Claim C7: device open performs a verification read of up to 3 attempts
after a backend opens, and returns `True` exactly when some backend opened
and some of the three read attempts produced a frame; otherwise it returns
`False`. -/
theorem initialize_camera_verification (s : LiveCamera) (openOk : Bool)
    (reads : Nat → Option Frame) :
    (s.initialize_camera openOk reads).1 = true ↔
      (openOk = true ∧ ∃ i, i < 3 ∧ (reads i).isSome) := by
  unfold LiveCamera.initialize_camera verificationRead
  cases openOk with
  | false =>
    simp
  | true =>
    rcases h0 : reads 0 with _ | f0
    · rcases h1 : reads 1 with _ | f1
      · rcases h2 : reads 2 with _ | f2
        · simp only [h0, h1, h2, if_true]
          constructor
          · intro h; simp at h
          · rintro ⟨-, i, hi, hsome⟩
            interval_cases i <;> simp_all
        · simp only [h0, h1, h2, if_true]
          refine ⟨fun _ => ⟨trivial, 2, by norm_num, by simp [h2]⟩, fun _ => trivial⟩
      · simp only [h0, h1, if_true]
        refine ⟨fun _ => ⟨trivial, 1, by norm_num, by simp [h1]⟩, fun _ => trivial⟩
    · simp only [h0, if_true]
      refine ⟨fun _ => ⟨trivial, 0, by norm_num, by simp [h0]⟩, fun _ => trivial⟩

/-- One cycle of `_run_fast_motion_detection` (camera.py lines 267-322),
acting on the motion-state fields of `s`. `res` is the outcome of the cv2
pipeline on the frame (steps 1-4 plus the per-contour `contourArea` /
`boundingRect` calls): `.error ()` when any of those raised, in which case
the `except` clause at lines 320-322 swallows the exception with only a log
message, leaving every field untouched. `frameW`/`frameH` are
`frame.shape[1]` / `frame.shape[0]`, `now` is `time.time()`. -/
def LiveCamera.run_fast_motion_detection (s : LiveCamera) (now : ℚ)
    (frameW frameH : Nat) (res : Except Unit (List Contour)) : LiveCamera :=
  match res with
  | .error _ => s
  | .ok contours =>
    let p := processContours s.motion_threshold frameW frameH contours
    if p.1 ≠ [] ∧ (p.2 : ℚ) > s.motion_threshold then
      if now - s.last_motion_time > s.motion_cooldown then
        { s with motion_detected := true, motion_areas := p.1, last_motion_time := now }
      else s
    else
      if now - s.last_motion_time > s.motion_cooldown then
        { s with motion_detected := false, motion_areas := [] }
      else s

/-- One observable engine operation after construction. -/
inductive EngineOp where
  /-- A `_capture_loop` iteration whose `self.cap.read()` returned a frame
  (camera.py lines 196-217): both cache slots receive a copy, the frame
  counter is incremented, the consecutive-error counter resets, and the
  timestamp is appended to the fps window. -/
  | captureSuccess (f : Frame) (now : ℚ)
  /-- A `_capture_loop` iteration whose read failed (lines 197-204):
  `error_count` is incremented and, once it reaches `max_errors`, a
  reconnect is attempted (`recFrame` is the verification frame it cached,
  or `none` if the reconnect failed) and `error_count` resets to 0. -/
  | captureFailure (recFrame : Option Frame)
  /-- A `_detection_loop` iteration that reaches `_run_fast_motion_detection`
  (lines 244-259): skipped when detection is disabled or no raw frame is
  cached; otherwise one analyzer cycle runs on a copy of the raw frame. -/
  | detectCycle (now : ℚ) (res : Except Unit (List Contour))
  /-- Facade call `set_motion_sensitivity` (lines 341-345). -/
  | setSensitivity (v : Int)
  /-- Facade call `set_motion_threshold` (lines 347-351). -/
  | setThreshold (t : ℚ)
  /-- Facade call `toggle_motion_detection` (lines 333-339). -/
  | toggleDetection
  /-- Facade call `stop` (lines 547-566). -/
  | stopEngine
  deriving Repr

/-- The deque `maxlen=30` behaviour of `self.fps_counter.append(now)`. -/
def dequeAppend30 (l : List ℚ) (now : ℚ) : List ℚ :=
  let l' := l ++ [now]
  l'.drop (l'.length - 30)

/-- State transition for one engine operation, translated clause by clause
from camera.py. -/
def LiveCamera.step (s : LiveCamera) (op : EngineOp) : LiveCamera :=
  match op with
  | .captureSuccess f now =>
    { s with
        current_frame := some f
        raw_frame := some f
        frame_count := s.frame_count + 1
        error_count := 0
        fps_counter := dequeAppend30 s.fps_counter now }
  | .captureFailure recFrame =>
    let e := s.error_count + 1
    if e ≥ s.max_errors then
      match recFrame with
      | some f =>
        { s with current_frame := some f, raw_frame := some f, error_count := 0 }
      | none => { s with error_count := 0 }
    else { s with error_count := e }
  | .detectCycle now res =>
    if s.motion_detection_enabled then
      match s.raw_frame with
      | none => s
      | some f => s.run_fast_motion_detection now f.w f.h res
    else s
  | .setSensitivity v => s.set_motion_sensitivity v
  | .setThreshold t => s.set_motion_threshold t
  | .toggleDetection => s.toggle_motion_detection
  | .stopEngine => { s with is_running := false }

/-- Running a sequence of engine operations. -/
def LiveCamera.runOps (s : LiveCamera) (ops : List EngineOp) : LiveCamera :=
  ops.foldl LiveCamera.step s

/-- Claim C9: any internal error raised during a motion-analysis cycle is
caught inside the analyzer (`try`/`except` at camera.py lines 271 and
320-322; every fallible cv2 call precedes the first state mutation): the
cycle leaves `motion_detected`, `motion_areas` and `last_motion_time`
exactly as they were, and — the embedded step being a total function — no
exception propagates out of the detection loop. -/
theorem analysis_error_preserves_motion_state (s : LiveCamera) (now : ℚ) :
    (s.step (.detectCycle now (.error ()))).motion_detected = s.motion_detected ∧
      (s.step (.detectCycle now (.error ()))).motion_areas = s.motion_areas ∧
      (s.step (.detectCycle now (.error ()))).last_motion_time = s.last_motion_time := by
  have hs : s.step (.detectCycle now (.error ())) = s := by
    unfold LiveCamera.step
    cases hE : s.motion_detection_enabled
    · simp
    · simp only [if_true]
      cases s.raw_frame <;> simp [LiveCamera.run_fast_motion_detection]
  rw [hs]
  exact ⟨rfl, rfl, rfl⟩

/-- Helper: one engine operation preserves the invariant
`motion_detected → motion_areas ≠ []`. The only operation that can set
`motion_detected` to `true` is a detection cycle whose assert branch
(camera.py lines 308-311) stores a region list whose guard requires
`len(motion_areas) > 0`. -/
theorem motionInv_step (s : LiveCamera) (op : EngineOp)
    (h : s.motion_detected = true → s.motion_areas ≠ []) :
    (s.step op).motion_detected = true → (s.step op).motion_areas ≠ [] := by
  cases op with
  | captureSuccess f now => simpa [LiveCamera.step] using h
  | captureFailure recFrame =>
    simp only [LiveCamera.step]
    split
    · cases recFrame <;> simpa using h
    · simpa using h
  | detectCycle now res =>
    simp only [LiveCamera.step]
    split
    · cases hr : s.raw_frame with
      | none => simpa using h
      | some f =>
        simp only [LiveCamera.run_fast_motion_detection]
        cases res with
        | error e => simpa using h
        | ok contours =>
          simp only
          split
          · next h1 =>
            split
            · intro _; simpa using h1.1
            · simpa using h
          · split
            · intro hd; simp at hd
            · simpa using h
    · simpa using h
  | setSensitivity v => simpa [LiveCamera.step, LiveCamera.set_motion_sensitivity] using h
  | setThreshold t => simpa [LiveCamera.step, LiveCamera.set_motion_threshold] using h
  | toggleDetection => simpa [LiveCamera.step, LiveCamera.toggle_motion_detection] using h
  | stopEngine => simpa [LiveCamera.step] using h

/-- Helper: the invariant `motion_detected → motion_areas ≠ []` is preserved
by any sequence of engine operations. -/
theorem motionInv_runOps (s : LiveCamera) (ops : List EngineOp)
    (h : s.motion_detected = true → s.motion_areas ≠ []) :
    (s.runOps ops).motion_detected = true → (s.runOps ops).motion_areas ≠ [] := by
  induction ops generalizing s with
  | nil => exact h
  | cons op rest ih => exact ih (s.step op) (motionInv_step s op h)

/-- Claim C3: in every reachable engine state — after construction and after
any sequence of capture iterations, detection cycles and facade calls —
`motion_detected = true` implies the stored motion-region list is non-empty. -/
theorem motion_detected_implies_regions (initFrame : Option Frame) (ops : List EngineOp)
    (h : ((initLiveCamera initFrame).runOps ops).motion_detected = true) :
    ((initLiveCamera initFrame).runOps ops).motion_areas ≠ [] :=
  motionInv_runOps _ ops (by simp [initLiveCamera]) h

/-- Witness for C3: a run in which motion is actually detected (one
detection cycle on a 160×120 frame carrying one contour of small-mask area
600 > threshold 500, at time 3 > cooldown 2 after the initial
`last_motion_time = 0`), with the invariant instantiated there. -/
theorem motion_detected_implies_regions_witness :
    ((initLiveCamera (some ⟨160, 120, []⟩)).runOps
        [.detectCycle 3 (.ok [⟨0, 0, 10, 10, 600⟩])]).motion_detected = true ∧
      ((initLiveCamera (some ⟨160, 120, []⟩)).runOps
        [.detectCycle 3 (.ok [⟨0, 0, 10, 10, 600⟩])]).motion_areas ≠ [] := by
  have hd : ((initLiveCamera (some ⟨160, 120, []⟩)).runOps
      [.detectCycle 3 (.ok [⟨0, 0, 10, 10, 600⟩])]).motion_detected = true := by
    simp [LiveCamera.runOps, initLiveCamera, LiveCamera.step,
      LiveCamera.run_fast_motion_detection, processContours, pyInt,
      motion_scale_w, motion_scale_h]
    norm_num
  exact ⟨hd, motion_detected_implies_regions (some ⟨160, 120, []⟩) _ hd⟩

/-- Claim C5: the frame counter is non-decreasing across every engine
operation, and the consecutive-error counter resets to 0 on any successful
capture (camera.py lines 210-211; the only increments of `error_count` are
the failure paths, and `frame_count` is only ever incremented). -/
theorem counters_monotone_and_reset (s : LiveCamera) (op : EngineOp) :
    s.frame_count ≤ (s.step op).frame_count ∧
      (∀ f now, op = .captureSuccess f now → (s.step op).error_count = 0) := by
  constructor
  · cases op with
    | captureSuccess f now => simp [LiveCamera.step]
    | captureFailure recFrame =>
      simp only [LiveCamera.step]
      split
      · cases recFrame <;> simp
      · simp
    | detectCycle now res =>
      simp only [LiveCamera.step]
      split
      · cases hr : s.raw_frame with
        | none => simp
        | some f =>
          simp only [LiveCamera.run_fast_motion_detection]
          cases res with
          | error e => simp
          | ok contours =>
            simp only
            split
            · split <;> simp
            · split <;> simp
      · simp
    | setSensitivity v => simp [LiveCamera.step, LiveCamera.set_motion_sensitivity]
    | setThreshold t => simp [LiveCamera.step, LiveCamera.set_motion_threshold]
    | toggleDetection => simp [LiveCamera.step, LiveCamera.toggle_motion_detection]
    | stopEngine => simp [LiveCamera.step]
  · rintro f now rfl
    simp [LiveCamera.step]

/-- Witness for C5: the counter facts instantiated at a concrete successful
capture from the freshly constructed state. -/
theorem counters_monotone_and_reset_witness :
    (initLiveCamera none).frame_count ≤
        ((initLiveCamera none).step (.captureSuccess ⟨160, 120, []⟩ 1)).frame_count ∧
      ((initLiveCamera none).step (.captureSuccess ⟨160, 120, []⟩ 1)).error_count = 0 :=
  ⟨(counters_monotone_and_reset (initLiveCamera none) (.captureSuccess ⟨160, 120, []⟩ 1)).1,
   (counters_monotone_and_reset (initLiveCamera none)
      (.captureSuccess ⟨160, 120, []⟩ 1)).2 ⟨160, 120, []⟩ 1 rfl⟩

/-- Helper: no engine operation writes `motion_cooldown` (it is set once in
`__init__`, camera.py line 56, and never assigned again). -/
theorem step_preserves_cooldown (s : LiveCamera) (op : EngineOp) :
    (s.step op).motion_cooldown = s.motion_cooldown := by
  cases op with
  | captureSuccess f now => simp [LiveCamera.step]
  | captureFailure recFrame =>
    simp only [LiveCamera.step]
    split
    · cases recFrame <;> simp
    · simp
  | detectCycle now res =>
    simp only [LiveCamera.step]
    split
    · cases hr : s.raw_frame with
      | none => simp
      | some f =>
        simp only [LiveCamera.run_fast_motion_detection]
        cases res with
        | error e => simp
        | ok contours =>
          simp only
          split
          · split <;> simp
          · split <;> simp
    · simp
  | setSensitivity v => simp [LiveCamera.step, LiveCamera.set_motion_sensitivity]
  | setThreshold t => simp [LiveCamera.step, LiveCamera.set_motion_threshold]
  | toggleDetection => simp [LiveCamera.step, LiveCamera.toggle_motion_detection]
  | stopEngine => simp [LiveCamera.step]

/-- Helper: `last_motion_time` is written only by the assert branch of a
detection cycle, to that cycle's `now` (camera.py line 311); hence any lower
bound `T` that also bounds every detection-cycle time is preserved. -/
theorem step_lmt_ge (s : LiveCamera) (op : EngineOp) (T : ℚ)
    (hs : T ≤ s.last_motion_time)
    (hop : ∀ t r, op = .detectCycle t r → T ≤ t) :
    T ≤ (s.step op).last_motion_time := by
  cases op with
  | captureSuccess f now => simpa [LiveCamera.step] using hs
  | captureFailure recFrame =>
    simp only [LiveCamera.step]
    split
    · cases recFrame <;> simpa using hs
    · simpa using hs
  | detectCycle now res =>
    have hT : T ≤ now := hop now res rfl
    simp only [LiveCamera.step]
    split
    · cases hr : s.raw_frame with
      | none => simpa using hs
      | some f =>
        simp only [LiveCamera.run_fast_motion_detection]
        cases res with
        | error e => simpa using hs
        | ok contours =>
          simp only
          split
          · split
            · simpa using hT
            · simpa using hs
          · split <;> simpa using hs
    · simpa using hs
  | setSensitivity v => simpa [LiveCamera.step, LiveCamera.set_motion_sensitivity] using hs
  | setThreshold t => simpa [LiveCamera.step, LiveCamera.set_motion_threshold] using hs
  | toggleDetection => simpa [LiveCamera.step, LiveCamera.toggle_motion_detection] using hs
  | stopEngine => simpa [LiveCamera.step] using hs

/-- Helper: `runOps` version of `step_preserves_cooldown`. -/
theorem runOps_preserves_cooldown (s : LiveCamera) (ops : List EngineOp) :
    (s.runOps ops).motion_cooldown = s.motion_cooldown := by
  induction ops generalizing s with
  | nil => rfl
  | cons op rest ih => rw [LiveCamera.runOps] at *; simpa [step_preserves_cooldown] using ih (s.step op)

/-- Helper: `runOps` version of `step_lmt_ge`. -/
theorem runOps_lmt_ge (s : LiveCamera) (ops : List EngineOp) (T : ℚ)
    (hs : T ≤ s.last_motion_time)
    (hop : ∀ t r, EngineOp.detectCycle t r ∈ ops → T ≤ t) :
    T ≤ (s.runOps ops).last_motion_time := by
  induction ops generalizing s with
  | nil => exact hs
  | cons op rest ih =>
    exact ih (s.step op)
      (step_lmt_ge s op T hs (fun t r hop' => hop t r (hop' ▸ List.mem_cons_self op rest)))
      (fun t r hmem => hop t r (List.mem_cons_of_mem op hmem))

/-- Helper: a detection cycle whose time has not passed the cooldown since
`last_motion_time` takes neither the assert branch nor the clear branch
(both guards at camera.py lines 308 and 316 require
`now - last_motion_time > motion_cooldown`), so it leaves the whole state
unchanged. -/
theorem detect_within_cooldown_noop (s : LiveCamera) (now : ℚ)
    (res : Except Unit (List Contour))
    (hnow : ¬ now - s.last_motion_time > s.motion_cooldown) :
    s.step (.detectCycle now res) = s := by
  simp only [LiveCamera.step]
  split
  · cases hr : s.raw_frame with
    | none => rfl
    | some f =>
      simp only [LiveCamera.run_fast_motion_detection]
      cases res with
      | error e => rfl
      | ok contours =>
        simp only [if_neg hnow]
        split <;> rfl
  · rfl

/-- Claim C2: if motion is asserted at time `T` (so `last_motion_time = T`
right after the assertion), then no flip from detected to not-detected
occurs at any later analysis step whose time is before `T + motionCooldown`
— whatever other engine operations intervene, and even if every
intervening analysis cycle finds zero surviving regions — provided the
clock never runs backwards past `T` (all later detection-cycle times are at
least `T`). -/
theorem motion_cooldown_no_flip (s : LiveCamera) (pre : List EngineOp) (now : ℚ)
    (res : Except Unit (List Contour))
    (htimes : ∀ t r, EngineOp.detectCycle t r ∈ pre → s.last_motion_time ≤ t)
    (hnow : now < s.last_motion_time + s.motion_cooldown) :
    ¬((s.runOps pre).motion_detected = true ∧
      (s.runOps (pre ++ [.detectCycle now res])).motion_detected = false) := by
  rintro ⟨hd, hflip⟩
  have hlmt : s.last_motion_time ≤ (s.runOps pre).last_motion_time :=
    runOps_lmt_ge s pre s.last_motion_time le_rfl htimes
  have hcool : (s.runOps pre).motion_cooldown = s.motion_cooldown :=
    runOps_preserves_cooldown s pre
  have hno : ¬ now - (s.runOps pre).last_motion_time > (s.runOps pre).motion_cooldown := by
    rw [hcool]
    intro hgt
    linarith
  have happ : s.runOps (pre ++ [.detectCycle now res]) =
      (s.runOps pre).step (.detectCycle now res) := by
    simp [LiveCamera.runOps, List.foldl_append]
  rw [happ, detect_within_cooldown_noop _ now res hno] at hflip
  rw [hd] at hflip
  simp at hflip

/-- A state just after a motion assertion at time 3 (cooldown 2): the
starting point of the C2 witness. -/
def assertedAt3 : LiveCamera :=
  { initLiveCamera none with
      motion_detected := true
      motion_areas := [⟨0, 0, 10, 10, 600⟩]
      last_motion_time := 3 }

/-- Witness for C2: from a state just after an assertion at `T = 3`
(cooldown 2), one analysis cycle at time 4 that sees zero regions does not
flip the state to not-detected. -/
theorem motion_cooldown_no_flip_witness :
    ((4 : ℚ) < assertedAt3.last_motion_time + assertedAt3.motion_cooldown) ∧
      ¬((assertedAt3.runOps []).motion_detected = true ∧
        (assertedAt3.runOps ([] ++ [.detectCycle 4 (.ok [])])).motion_detected = false) := by
  refine ⟨by norm_num [assertedAt3, initLiveCamera], ?_⟩
  exact motion_cooldown_no_flip assertedAt3 [] 4 (.ok [])
    (fun t r h => absurd h (List.not_mem_nil _))
    (by norm_num [assertedAt3, initLiveCamera])

/-- The surviving regions and their total area that one cycle of
`_run_fast_motion_detection` computes from the cached raw frame: the
filtered, rescaled contour list and `total_motion_area` (camera.py lines
286-303); `([], 0)` when no raw frame is cached or the cv2 pipeline
raised. -/
def LiveCamera.survivors (s : LiveCamera) (res : Except Unit (List Contour)) :
    List Region × Int :=
  match s.raw_frame, res with
  | some f, .ok contours => processContours s.motion_threshold f.w f.h contours
  | _, _ => ([], 0)

/-- Motion is asserted at a detection cycle (camera.py lines 308-311),
observed on the resulting state: the cycle ends with `motion_detected =
true` and `last_motion_time` rewritten to the cycle's own time. -/
def LiveCamera.assertsAt (s : LiveCamera) (now : ℚ)
    (res : Except Unit (List Contour)) : Prop :=
  (s.step (.detectCycle now res)).motion_detected = true ∧
    (s.step (.detectCycle now res)).last_motion_time = now

/-- Claim C1, amended: a detection cycle (at a time strictly later than the
stored `last_motion_time`) asserts motion only if the surviving regions are
non-empty, their total area exceeds `motion_threshold`, and more than
`motion_cooldown` seconds have elapsed since the last *assertion* of motion
(the stored `last_motion_time`) — not since the last state flip in either
direction: a flip to not-detected leaves `last_motion_time` untouched
(camera.py lines 316-318) and therefore does not delay the next
assertion. -/
theorem motion_asserted_conditions (s : LiveCamera) (now : ℚ)
    (res : Except Unit (List Contour))
    (hlt : s.last_motion_time < now)
    (h : s.assertsAt now res) :
    (s.survivors res).1 ≠ [] ∧ ((s.survivors res).2 : ℚ) > s.motion_threshold ∧
      now - s.last_motion_time > s.motion_cooldown := by
  obtain ⟨hd, hlmt⟩ := h
  by_cases hE : s.motion_detection_enabled
  · cases hr : s.raw_frame with
    | none =>
      have hid : s.step (.detectCycle now res) = s := by
        simp [LiveCamera.step, hE, hr]
      rw [hid] at hlmt
      exact absurd hlmt (ne_of_lt hlt)
    | some f =>
      cases res with
      | error e =>
        have hid : s.step (.detectCycle now (.error e)) = s := by
          simp [LiveCamera.step, hE, hr, LiveCamera.run_fast_motion_detection]
        rw [hid] at hlmt
        exact absurd hlmt (ne_of_lt hlt)
      | ok contours =>
        have hstep : s.step (.detectCycle now (.ok contours)) =
            s.run_fast_motion_detection now f.w f.h (.ok contours) := by
          simp [LiveCamera.step, hE, hr]
        rw [hstep] at hd hlmt
        unfold LiveCamera.run_fast_motion_detection at hd hlmt
        simp only at hd hlmt
        by_cases h1 : (processContours s.motion_threshold f.w f.h contours).1 ≠ [] ∧
            ((processContours s.motion_threshold f.w f.h contours).2 : ℚ) > s.motion_threshold
        · by_cases h2 : now - s.last_motion_time > s.motion_cooldown
          · refine ⟨?_, ?_, h2⟩
            · simpa [LiveCamera.survivors, hr] using h1.1
            · simpa [LiveCamera.survivors, hr] using h1.2
          · rw [if_pos h1, if_neg h2] at hlmt
            exact absurd hlmt (ne_of_lt hlt)
        · by_cases h2 : now - s.last_motion_time > s.motion_cooldown
          · rw [if_neg h1, if_pos h2] at hd
            simp at hd
          · rw [if_neg h1, if_neg h2] at hlmt
            exact absurd hlmt (ne_of_lt hlt)
  · have hid : s.step (.detectCycle now res) = s := by
      simp [LiveCamera.step, hE]
    rw [hid] at hlmt
    exact absurd hlmt (ne_of_lt hlt)

/-- Witness for the amended C1: the freshly constructed engine asserts
motion at time 3 on one surviving contour, and the three conditions hold
there. -/
theorem motion_asserted_conditions_witness :
    (initLiveCamera (some ⟨160, 120, []⟩)).last_motion_time < 3 ∧
      (((initLiveCamera (some ⟨160, 120, []⟩)).survivors
          (.ok [⟨0, 0, 10, 10, 600⟩])).1 ≠ [] ∧
        (((initLiveCamera (some ⟨160, 120, []⟩)).survivors
            (.ok [⟨0, 0, 10, 10, 600⟩])).2 : ℚ) >
          (initLiveCamera (some ⟨160, 120, []⟩)).motion_threshold ∧
        (3 : ℚ) - (initLiveCamera (some ⟨160, 120, []⟩)).last_motion_time >
          (initLiveCamera (some ⟨160, 120, []⟩)).motion_cooldown) := by
  refine ⟨by norm_num [initLiveCamera], ?_⟩
  refine motion_asserted_conditions _ 3 _ (by norm_num [initLiveCamera]) ?_
  constructor <;>
    · simp [LiveCamera.assertsAt, LiveCamera.step, initLiveCamera,
        LiveCamera.run_fast_motion_detection, processContours, pyInt,
        motion_scale_w, motion_scale_h]
      norm_num

/-- Run engine operations while tracking the time of the most recent flip
of `motion_detected` in either direction; a flip can only happen at a
detection cycle, whose `now` is recorded. -/
def LiveCamera.runFlips (s : LiveCamera) (ops : List EngineOp) :
    LiveCamera × Option ℚ :=
  ops.foldl
    (fun p op =>
      (p.1.step op,
        if (p.1.step op).motion_detected ≠ p.1.motion_detected then
          match op with
          | .detectCycle t _ => some t
          | _ => p.2
        else p.2))
    (s, none)

/-- Claim C1 exactly as stated: whenever an analysis step of a run asserts
motion (sets `motion_detected` to true and rewrites `last_motion_time`),
the surviving regions are non-empty, their total area exceeds the motion
threshold, and at least `motion_cooldown` seconds have elapsed since the
last state flip in either direction. -/
def MotionAssertNeedsFlipCooldown (s : LiveCamera) (ops : List EngineOp) : Prop :=
  ∀ pre now res post, ops = pre ++ EngineOp.detectCycle now res :: post →
    (s.runFlips pre).1.assertsAt now res →
    (((s.runFlips pre).1.survivors res).1 ≠ [] ∧
      (((s.runFlips pre).1.survivors res).2 : ℚ) > (s.runFlips pre).1.motion_threshold ∧
      ∀ t, (s.runFlips pre).2 = some t → (s.runFlips pre).1.motion_cooldown ≤ now - t)

/-- C1 counterexample trace, initial state: the freshly constructed engine
with a 160×120 raw frame cached (cooldown 2, threshold 500). -/
def cexS0 : LiveCamera := initLiveCamera (some ⟨160, 120, []⟩)

/-- C1 counterexample trace, state after the analyzer asserts motion at
time 3 on one surviving contour of area 600 (scale 1). -/
def cexS1 : LiveCamera :=
  { cexS0 with
      motion_detected := true
      motion_areas := [⟨0, 0, 10, 10, 600⟩]
      last_motion_time := 3 }

/-- C1 counterexample trace, state after the analyzer clears at time 6:
`motion_detected` flips to false but `last_motion_time` stays 3. -/
def cexS2 : LiveCamera :=
  { cexS1 with
      motion_detected := false
      motion_areas := [] }

/-- C1 counterexample trace: the assert step at time 3. -/
theorem cex_step1 :
    cexS0.step (.detectCycle 3 (.ok [⟨0, 0, 10, 10, 600⟩])) = cexS1 := by
  norm_num [cexS0, cexS1, initLiveCamera, LiveCamera.step,
    LiveCamera.run_fast_motion_detection, processContours, pyInt,
    motion_scale_w, motion_scale_h]

/-- C1 counterexample trace: the clear step at time 6 (6 - 3 > cooldown 2,
zero surviving regions). -/
theorem cex_step2 :
    cexS1.step (.detectCycle 6 (.ok [])) = cexS2 := by
  norm_num [cexS0, cexS1, cexS2, initLiveCamera, LiveCamera.step,
    LiveCamera.run_fast_motion_detection, processContours, pyInt,
    motion_scale_w, motion_scale_h]

/-- C1 counterexample trace: the flip tracker after the first two steps
records the clear flip at time 6, with the state at `cexS2`. -/
theorem cex_runFlips :
    cexS0.runFlips [.detectCycle 3 (.ok [⟨0, 0, 10, 10, 600⟩]),
      .detectCycle 6 (.ok [])] = (cexS2, some 6) := by
  rw [LiveCamera.runFlips]
  simp only [List.foldl_cons, List.foldl_nil, cex_step1, cex_step2]
  norm_num [cexS0, cexS1, cexS2, initLiveCamera]

/-- C1 counterexample trace: at time 7 — one second after the clear flip —
the analyzer asserts motion again, since `7 - last_motion_time = 4 >
cooldown`. -/
theorem cex_step3 :
    cexS2.assertsAt 7 (.ok [⟨0, 0, 10, 10, 600⟩]) := by
  constructor <;>
    norm_num [cexS0, cexS1, cexS2, initLiveCamera, LiveCamera.assertsAt,
      LiveCamera.step, LiveCamera.run_fast_motion_detection, processContours,
      pyInt, motion_scale_w, motion_scale_h]

/-- Counterexample to claim C1 as stated: run the analyzer at times 3, 6
and 7 (cooldown 2, threshold 500) on a 160×120 frame. At t=3 motion is
asserted (flip to detected, `last_motion_time := 3`); at t=6 the state
clears (flip to not-detected — but `last_motion_time` stays 3); at t=7,
only 1 second after that flip, motion is asserted again because the code
only compares against `last_motion_time = 3`, violating the claimed
"cooldown since the last state flip in either direction". -/
theorem motion_assert_flip_cooldown_counterexample :
    ¬ MotionAssertNeedsFlipCooldown cexS0
        [.detectCycle 3 (.ok [⟨0, 0, 10, 10, 600⟩]),
         .detectCycle 6 (.ok []),
         .detectCycle 7 (.ok [⟨0, 0, 10, 10, 600⟩])] := by
  intro h
  have hassert : (cexS0.runFlips [.detectCycle 3 (.ok [⟨0, 0, 10, 10, 600⟩]),
      .detectCycle 6 (.ok [])]).1.assertsAt 7 (.ok [⟨0, 0, 10, 10, 600⟩]) := by
    rw [cex_runFlips]
    exact cex_step3
  have h3 := h [.detectCycle 3 (.ok [⟨0, 0, 10, 10, 600⟩]), .detectCycle 6 (.ok [])]
      7 (.ok [⟨0, 0, 10, 10, 600⟩]) [] rfl hassert
  have hbad := h3.2.2 6 (by rw [cex_runFlips])
  rw [cex_runFlips] at hbad
  norm_num [cexS2, cexS1, cexS0, initLiveCamera] at hbad

/-- A store of numpy arrays, by reference: `mem` maps an array reference to
its current pixel contents, `next` is the next fresh reference. Models the
aliasing structure of the Python objects so that `frame.copy()` (a fresh
independent array) is distinguishable from sharing the same array. -/
structure ArrStore where
  mem : Nat → Frame
  next : Nat

/-- `frame.copy()`: allocate a fresh array holding the value `v`. -/
def ArrStore.alloc (st : ArrStore) (v : Frame) : ArrStore × Nat :=
  (⟨fun i => if i = st.next then v else st.mem i, st.next + 1⟩, st.next)

/-- In-place mutation of the array behind reference `r` (what a caller does
to an array it holds). -/
def ArrStore.write (st : ArrStore) (r : Nat) (v : Frame) : ArrStore :=
  ⟨fun i => if i = r then v else st.mem i, st.next⟩

/-- The frame cache: the two slots `self.current_frame` / `self.raw_frame`
(camera.py lines 43-44), holding references into the array store (or
nothing before the first capture). The `frame_lock` serialises the
compound operations below; each operation is therefore modelled as one
atomic state transformation. -/
structure FrameCache where
  store : ArrStore
  current_frame : Option Nat
  raw_frame : Option Nat

/-- The cache write of a successful capture (camera.py lines 206-208):
`self.current_frame = frame.copy(); self.raw_frame = frame.copy()` —
each slot gets its own fresh copy of the source array `src`. -/
def FrameCache.captureWrite (c : FrameCache) (src : Nat) : FrameCache :=
  let a1 := c.store.alloc (c.store.mem src)
  let a2 := a1.1.alloc (a1.1.mem src)
  ⟨a2.1, some a1.2, some a2.2⟩

/-- `get_current_frame(security_overlay=False)` (camera.py lines 361-369):
under the lock, return `None` when no frame is cached, else a fresh copy
(`self.current_frame.copy()`) of the current slot. Returns the reference
handed to the caller and the store extended by the new copy. -/
def FrameCache.get_current_frame (c : FrameCache) : Option Nat × FrameCache :=
  match c.current_frame with
  | none => (none, c)
  | some r =>
    let a := c.store.alloc (c.store.mem r)
    (some a.2, ⟨a.1, c.current_frame, c.raw_frame⟩)

/-- The pixel contents that `get_current_frame(security_overlay=False)`
hands back to its caller, if any. -/
def FrameCache.readRet (c : FrameCache) : Option Frame :=
  match c.get_current_frame with
  | (none, _) => none
  | (some r, c') => some (c'.store.mem r)

/-- Mutating, through its reference, an array that a getter returned (or
any array the caller holds): only the store changes, the cache slots keep
their references. -/
def FrameCache.callerWrite (c : FrameCache) (r : Nat) (v : Frame) : FrameCache :=
  ⟨c.store.write r v, c.current_frame, c.raw_frame⟩

/-- The caller scenario "get a frame, mutate the returned array in place,
then get again": returns the contents the second getter hands back. -/
def FrameCache.getMutateGet (c : FrameCache) (v : Frame) : Option Frame :=
  match c.get_current_frame with
  | (none, _) => none
  | (some r, c') => (c'.callerWrite r v).readRet

/-- Claim C4: for every frame written into the cache by a successful
capture (from a live source array `src`), an immediately following
`get_current_frame` with overlay disabled returns pixel contents identical
to the written frame; mutating the returned array (with any value `v`)
never changes what a subsequent getter returns; and mutating the capture's
source array after the write does not change it either: every cache write
stores independent copies and every getter returns an independent copy. -/
theorem frame_cache_copy_isolation (c : FrameCache) (src : Nat) (v w : Frame)
    (hsrc : src < c.store.next) :
    ((c.captureWrite src).readRet = some (c.store.mem src)) ∧
      ((c.captureWrite src).getMutateGet v = some (c.store.mem src)) ∧
      (((c.captureWrite src).callerWrite src w).readRet = some (c.store.mem src)) := by
  have hne1 : src ≠ c.store.next := by omega
  have hne1' : c.store.next ≠ src := by omega
  have hne2 : src ≠ c.store.next + 1 := by omega
  have hne2' : c.store.next + 1 ≠ src := by omega
  have hne3 : c.store.next ≠ c.store.next + 1 := by omega
  have hne4 : c.store.next ≠ c.store.next + 2 := by omega
  have hne5 : c.store.next + 1 ≠ c.store.next + 2 := by omega
  refine ⟨?_, ?_, ?_⟩
  · simp [FrameCache.captureWrite, FrameCache.readRet, FrameCache.get_current_frame,
      ArrStore.alloc, hne1, hne1', hne2, hne2', hne3, hne4, hne5]
  · simp [FrameCache.captureWrite, FrameCache.getMutateGet, FrameCache.callerWrite,
      FrameCache.readRet, FrameCache.get_current_frame,
      ArrStore.alloc, ArrStore.write, hne1, hne1', hne2, hne2', hne3, hne4, hne5]
  · simp [FrameCache.captureWrite, FrameCache.callerWrite, FrameCache.readRet,
      FrameCache.get_current_frame, ArrStore.alloc, ArrStore.write,
      hne1, hne1', hne2, hne2', hne3, hne4, hne5]

/-- A concrete cache for the C4 witness: one live 2×2 source array at
reference 0, nothing cached yet. -/
def witnessCache : FrameCache :=
  ⟨⟨fun _ => ⟨2, 2, [1, 2, 3, 4]⟩, 1⟩, none, none⟩

/-- Witness for C4: the copy-isolation facts instantiated at a concrete
cache holding one 2×2 source array, with concrete mutation values. -/
theorem frame_cache_copy_isolation_witness :
    0 < witnessCache.store.next ∧
      ((witnessCache.captureWrite 0).readRet = some (witnessCache.store.mem 0)) ∧
      ((witnessCache.captureWrite 0).getMutateGet ⟨2, 2, [9, 9, 9, 9]⟩ =
        some (witnessCache.store.mem 0)) ∧
      (((witnessCache.captureWrite 0).callerWrite 0 ⟨2, 2, [7, 7, 7, 7]⟩).readRet =
        some (witnessCache.store.mem 0)) :=
  ⟨by norm_num [witnessCache],
   frame_cache_copy_isolation witnessCache 0 ⟨2, 2, [9, 9, 9, 9]⟩ ⟨2, 2, [7, 7, 7, 7]⟩
     (by norm_num [witnessCache])⟩

/-- A BGR colour triple as passed to the cv2 drawing calls. -/
abbrev Color := Nat × Nat × Nat

/-- The arguments of one `cv2.rectangle(frame, (x1,y1), (x2,y2), color,
thickness)` call. -/
structure RectSpec where
  x1 : Int
  y1 : Int
  x2 : Int
  y2 : Int
  color : Color
  thickness : Int
  deriving DecidableEq, Repr

/-- `cv2.FONT_HERSHEY_SIMPLEX`. -/
def FONT_HERSHEY_SIMPLEX : Nat := 0

/-- `cv2.FONT_HERSHEY_DUPLEX`. -/
def FONT_HERSHEY_DUPLEX : Nat := 2

/-- One drawing primitive applied to the frame by `add_security_overlay`.
The pixel effect of each primitive is the (deterministic) cv2 rasteriser's
business; the rendered output is determined by the base frame together
with the ordered list of primitives. -/
inductive DrawOp where
  /-- `cv2.addWeighted(frame, alpha, overlay, beta, gamma)` where `overlay`
  is a copy of the frame carrying the listed rectangles (the translucent
  top and bottom bars, camera.py lines 475-478). -/
  | blend (alpha : ℚ) (bars : List RectSpec) (beta gamma : ℚ)
  | rect (r : RectSpec)
  | text (s : String) (x y : Int) (font : Nat) (scale : ℚ) (color : Color) (thickness : Nat)
  | circle (x y : Int) (radius : Nat) (color : Color) (thickness : Int)
  | line (x1 y1 x2 y2 : Int) (color : Color) (thickness : Nat)
  deriving DecidableEq, Repr

/-- Python `str(n).zfill(width)` for the `:02d` / `:08d` format specs. -/
def zfill (width : Nat) (n : Nat) : String :=
  let s := toString n
  String.mk (List.replicate (width - s.length) '0') ++ s

/-- The `self` fields that `add_security_overlay` reads (camera.py lines
481, 491-493, 507, 519, 525). -/
structure OverlayEnv where
  camera_index : Nat
  motion_detection_enabled : Bool
  motion_detected : Bool
  motion_areas : List Region
  frame_count : Nat
  deriving DecidableEq, Repr

/-- `add_security_overlay` (camera.py lines 468-541), as the input frame
plus the ordered drawing primitives applied to (a copy of) it. `gts`
abstracts `cv2.getTextSize(text, FONT_HERSHEY_DUPLEX, scale, 1)[0][0]`
(the rendered text width, an external deterministic library function);
`now` is the already-formatted `datetime.now().strftime("%d/%m/%Y
%H:%M:%S")` string read from the wall clock inside the function. -/
def add_security_overlay (gts : String → ℚ → Nat) (env : OverlayEnv)
    (frame : Frame) (now : String) : Frame × List DrawOp :=
  let w : Int := frame.w
  let h : Int := frame.h
  let camera_id := "CAM-" ++ zfill 2 env.camera_index
  let baseOps : List DrawOp :=
    [.blend (8/10) [⟨0, 0, w, 35, (0, 0, 0), -1⟩, ⟨0, h - 35, w, h, (0, 0, 0), -1⟩]
        (2/10) 0,
     .text camera_id 10 20 FONT_HERSHEY_DUPLEX (6/10) (0, 255, 0) 1,
     .circle 100 15 5 (0, 0, 255) (-1),
     .text "REC" 115 20 FONT_HERSHEY_DUPLEX (5/10) (0, 0, 255) 1]
  let motionOps : List DrawOp :=
    if env.motion_detection_enabled then
      let color : Color := if env.motion_detected then (0, 0, 255) else (0, 255, 0)
      let mtext := if env.motion_detected then "MOTION ALERT" else "MOTION ON"
      let x_center := Int.fdiv (w - (gts mtext (5/10) : Int)) 2
      [.text mtext x_center 20 FONT_HERSHEY_DUPLEX (5/10) color 1,
       .circle (x_center - 15) 15 4 color (-1)]
    else []
  let res_text := toString frame.w ++ "×" ++ toString frame.h
  let resOps : List DrawOp :=
    [.text res_text (w - (gts res_text (5/10) : Int) - 10) 20
        FONT_HERSHEY_DUPLEX (5/10) (255, 255, 255) 1]
  let boxOps : List DrawOp :=
    if env.motion_detected ∧ env.motion_areas ≠ [] then
      env.motion_areas.foldr
        (fun a acc =>
          DrawOp.rect ⟨a.x, a.y, a.x + a.w, a.y + a.h, (0, 0, 255), 2⟩ ::
            DrawOp.text ("MOTION: " ++ toString a.area) a.x (a.y - 10)
              FONT_HERSHEY_SIMPLEX (5/10) (0, 0, 255) 1 :: acc)
        []
    else []
  let tsOps : List DrawOp :=
    [.text now 10 (h - 10) FONT_HERSHEY_DUPLEX (6/10) (0, 255, 0) 1]
  let counter_text := "FRAME: " ++ zfill 8 env.frame_count
  let counterOps : List DrawOp :=
    [.text counter_text (w - (gts counter_text (4/10) : Int) - 10) (h - 10)
        FONT_HERSHEY_DUPLEX (4/10) (255, 255, 255) 1]
  let bracket_color : Color := if env.motion_detected then (0, 0, 255) else (0, 255, 0)
  let bsize : Int := 20
  let bracketOps : List DrawOp :=
    [.line 5 40 5 (40 + bsize) bracket_color 2,
     .line 5 40 (5 + bsize) 40 bracket_color 2,
     .line (w - 5) 40 (w - 5) (40 + bsize) bracket_color 2,
     .line (w - 5) 40 (w - 5 - bsize) 40 bracket_color 2,
     .line 5 (h - 40) 5 (h - 40 - bsize) bracket_color 2,
     .line 5 (h - 40) (5 + bsize) (h - 40) bracket_color 2,
     .line (w - 5) (h - 40) (w - 5) (h - 40 - bsize) bracket_color 2,
     .line (w - 5) (h - 40) (w - 5 - bsize) (h - 40) bracket_color 2]
  (frame, baseOps ++ motionOps ++ resOps ++ boxOps ++ tsOps ++ counterOps ++ bracketOps)

/-- Claim C6, amended: the overlay renderer is deterministic given
identical frame, stats, motion state AND an identical wall-clock reading:
`add_security_overlay` renders `datetime.now()` (camera.py line 514), so
the render-time clock value is an input; fixing it along with the other
inputs makes the output byte-identical across calls. -/
theorem overlay_deterministic (gts : String → ℚ → Nat)
    (env1 env2 : OverlayEnv) (f1 f2 : Frame) (n1 n2 : String)
    (he : env1 = env2) (hf : f1 = f2) (hn : n1 = n2) :
    add_security_overlay gts env1 f1 n1 = add_security_overlay gts env2 f2 n2 := by
  subst he
  subst hf
  subst hn
  rfl

/-- A concrete text-width function for the C6 witness and counterexample
(any fixed deterministic function works; cv2's rasteriser is one). -/
def gts0 : String → ℚ → Nat := fun s _ => s.length * 10

/-- Concrete overlay environment for the C6 witness and counterexample. -/
def env0 : OverlayEnv :=
  { camera_index := 0
    motion_detection_enabled := true
    motion_detected := false
    motion_areas := []
    frame_count := 42 }

/-- Witness for the amended C6: two renders with identical inputs,
including the clock string, agree. -/
theorem overlay_deterministic_witness :
    env0 = env0 ∧ (⟨320, 240, [5]⟩ : Frame) = ⟨320, 240, [5]⟩ ∧
      "01/01/2026 12:00:00" = "01/01/2026 12:00:00" ∧
      add_security_overlay gts0 env0 ⟨320, 240, [5]⟩ "01/01/2026 12:00:00" =
        add_security_overlay gts0 env0 ⟨320, 240, [5]⟩ "01/01/2026 12:00:00" :=
  ⟨rfl, rfl, rfl,
   overlay_deterministic gts0 env0 env0 ⟨320, 240, [5]⟩ ⟨320, 240, [5]⟩
     "01/01/2026 12:00:00" "01/01/2026 12:00:00" rfl rfl rfl⟩

/-- Counterexample to claim C6 as stated: two calls with the same frame,
the same stats and the same motion state, but one second apart on the wall
clock, produce different outputs — the rendered timestamp text differs
(camera.py lines 513-516), so the outputs are not byte-identical. -/
theorem overlay_time_dependence_counterexample :
    add_security_overlay gts0 env0 ⟨320, 240, [5]⟩ "01/01/2026 12:00:00" ≠
      add_security_overlay gts0 env0 ⟨320, 240, [5]⟩ "01/01/2026 12:00:01" := by
  intro h
  simp [add_security_overlay, env0, gts0, zfill] at h

/-- The engine fields read by `add_security_overlay`, gathered from a
`LiveCamera` state. -/
def LiveCamera.overlayEnv (s : LiveCamera) : OverlayEnv :=
  { camera_index := s.camera_index
    motion_detection_enabled := s.motion_detection_enabled
    motion_detected := s.motion_detected
    motion_areas := s.motion_areas
    frame_count := s.frame_count }

/-- `get_current_frame` (camera.py lines 361-369): under the lock, return
`None` when no frame is cached; otherwise a copy of the cached frame, with
the overlay applied to it when `security_overlay` is true. A raw (no
overlay) result is the frame with no drawing primitives. -/
def LiveCamera.get_current_frame (s : LiveCamera) (gts : String → ℚ → Nat)
    (now : String) (security_overlay : Bool) : Option (Frame × List DrawOp) :=
  match s.current_frame with
  | none => none
  | some f =>
    if security_overlay then some (add_security_overlay gts s.overlayEnv f now)
    else some (f, [])

/-- `read_frame` (camera.py lines 371-379): OpenCV-style `(ret, frame)`
pair; `(False, None)` when no frame is cached. -/
def LiveCamera.read_frame (s : LiveCamera) (gts : String → ℚ → Nat)
    (now : String) (security_overlay : Bool) : Bool × Option (Frame × List DrawOp) :=
  match s.current_frame with
  | none => (false, none)
  | some f =>
    if security_overlay then (true, some (add_security_overlay gts s.overlayEnv f now))
    else (true, some (f, []))

/-- Claim C8: whenever no frame exists in the cache, `get_current_frame`
returns `None` and `read_frame` returns `(False, None)` — for either
overlay setting — and, the embedded getters being total functions that
inspect only the cached slot, they neither block nor raise. -/
theorem empty_cache_prompt_return (s : LiveCamera) (gts : String → ℚ → Nat)
    (now : String) (security_overlay : Bool)
    (h : s.current_frame = none) :
    s.get_current_frame gts now security_overlay = none ∧
      s.read_frame gts now security_overlay = (false, none) := by
  simp [LiveCamera.get_current_frame, LiveCamera.read_frame, h]

/-- Witness for C8: the freshly constructed engine before any frame is
cached returns empty results from both getters. -/
theorem empty_cache_prompt_return_witness :
    (initLiveCamera none).current_frame = none ∧
      (initLiveCamera none).get_current_frame gts0 "01/01/2026 12:00:00" true = none ∧
      (initLiveCamera none).read_frame gts0 "01/01/2026 12:00:00" true = (false, none) :=
  ⟨rfl,
   (empty_cache_prompt_return (initLiveCamera none) gts0 "01/01/2026 12:00:00" true rfl).1,
   (empty_cache_prompt_return (initLiveCamera none) gts0 "01/01/2026 12:00:00" true rfl).2⟩
